import Mathlib

/-!
# WENOHybrid: a shallow embedding of `libWENOEXT/WENOHybrid/WENOHybrid.H`

The header declares the class template `Foam::WENOHybrid<Type>`.  It holds the
private data, the three constructors, `zeroFlux()` and `corrected()` in full;
`weights`, `correction`, `calcCorrectionFlux`, `calcShockSensor`, `calcLimiter`,
`sumFlux`, `swapData` and `coupledRiemannSolver` are declared only (their bodies
live in `WENOHybrid.C`).

Conventions of the embedding:

* `scalar` (a floating-point number in OpenFOAM) is an exact rational and `label`
  an integer.  Arithmetic on scalars is exact; the conversion of a `label` to
  `scalar` rounds to the number of significand bits of the build.
* A `const T&` member is a `reference`: either the live object it is bound to, or
  dangling when that object has been deleted.
* A constructor that can stop with a fatal error returns `Except FatalError _`.
* An `Istream` is the list of tokens still to be read; a constructor that reads
  from a stream returns the stream that is left.
-/

set_option autoImplicit false

namespace Foam

/-! ## Primitive types -/

/-- OpenFOAM `scalar`, taken as an exact rational number. -/
abbrev scalar := ℚ

/-- OpenFOAM `label`, an integer index. -/
abbrev label := ℤ

/-- OpenFOAM `word`. -/
abbrev word := String

/-- The fatal stops a constructor of the scheme can run into. -/
inductive FatalError where
  /-- The stream ended, or held a token of the wrong kind. -/
  | ioError
  /-- `lookupObject` found no object of the requested name. -/
  | lookupError
  /-- The construction of a collaborator (the sensor) stopped. -/
  | collaboratorError
deriving DecidableEq, Repr

/-- Exponents of the seven base dimensions (`dimensionSet`). -/
structure dimensionSet where
  mass : ℤ
  length : ℤ
  time : ℤ
  temperature : ℤ
  moles : ℤ
  current : ℤ
  luminousIntensity : ℤ
deriving DecidableEq, Repr

/-- The dimension set `dimless`. -/
def dimless : dimensionSet := ⟨0, 0, 0, 0, 0, 0, 0⟩

/-- A named value with dimensions (`dimensioned<Type>`). -/
structure dimensioned (V : Type) where
  name : word
  dimensions : dimensionSet
  value : V

/-- The `IOobject` arguments the header passes: object name and time instance. -/
structure IOobject where
  name : word
  instanceName : word
deriving DecidableEq, Repr

/-- A `GeometricField`: one value per internal element and, per boundary patch,
one value per patch element.  For a surface field the elements are faces, for a
volume field the internal elements are cells. -/
structure GeometricField (V : Type) where
  name : word
  instanceName : word
  dimensions : dimensionSet
  internalField : List V
  boundaryField : List (List V)
deriving DecidableEq, Repr

/-- The type `surfaceScalarField`. -/
abbrev surfaceScalarField := GeometricField scalar

/-- The part of `fvMesh` the header touches: the face counts that size a surface
field, the current time name, and the surface scalar fields registered on the
mesh (what `lookupObject<surfaceScalarField>` searches). -/
structure fvMesh where
  nInternalFaces : ℕ
  patchSizes : List ℕ
  timeName : word
  registry : List surfaceScalarField
deriving DecidableEq, Repr

/-- Constructor `GeometricField(io, mesh, dimensionedValue)` for a surface field:
the same value on every internal face and on every face of every patch. -/
def GeometricField.uniformSurface {V : Type} (io : IOobject) (mesh : fvMesh)
    (dt : dimensioned V) : GeometricField V :=
  { name := io.name
    instanceName := io.instanceName
    dimensions := dt.dimensions
    internalField := List.replicate mesh.nInternalFaces dt.value
    boundaryField := mesh.patchSizes.map (fun n => List.replicate n dt.value) }

/-- Member `fvMesh::lookupObject<surfaceScalarField>(name)`: the registered field of
that name, a fatal error when there is none. -/
def fvMesh.lookupObject (mesh : fvMesh) (name : word) :
    Except FatalError surfaceScalarField :=
  match mesh.registry.find? (fun f => f.name == name) with
  | some f => .ok f
  | none => .error .lookupError

/-! ## Temporaries, references and conversions -/

/-- OpenFOAM `tmp<T>`: a handle to an object.  `isTmp` tells whether the handle was
built from a pointer to a `new` object, which it then owns and deletes when the
handle is destroyed, or from a reference to an object owned elsewhere. -/
structure tmp (T : Type) where
  object : T
  isTmp : Bool
deriving DecidableEq, Repr

/-- What a `const T&` member refers to once the constructor has run. -/
inductive reference (T : Type) where
  /-- An object that is alive. -/
  | live (object : T)
  /-- An object that has been deleted. -/
  | dangling
deriving DecidableEq, Repr

/-- The object behind a reference, if it is alive. -/
def reference.deref {T : Type} : reference T → Option T
  | .live object => some object
  | .dangling => none

/-- A `const T&` member initialised from a `tmp<T>` temporary, as in
`faceFlux_(zeroFlux())`.  The reference is bound, through the conversion of `tmp<T>`
to `const T&`, to the object of the handle; the temporary is destroyed at the end of
the initialiser and, when it owns the object, deletes it. -/
def tmp.bindMember {T : Type} (t : tmp T) : reference T :=
  if t.isTmp then .dangling else .live t.object

/-- Conversion of a `label` to `scalar`, as in `polOrder_(polOrder)`, for a `scalar`
of `digits` significand bits (53 in double precision, 24 in single precision): the
nearest representable value, ties to even.  A label of fewer bits than `digits` is
converted exactly. -/
def labelToScalar (digits : ℕ) (n : label) : scalar :=
  let a := n.natAbs
  if a < 2 ^ digits then (n : ℚ)
  else
    let e := Nat.log2 a + 1 - digits
    let q := a / 2 ^ e
    let r := a % 2 ^ e
    let q1 := if 2 ^ e < 2 * r ∨ (2 * r = 2 ^ e ∧ q % 2 = 1) then q + 1 else q
    ((n.sign * ((q1 * 2 ^ e : ℕ) : ℤ) : ℤ) : ℚ)

/-! ## Token streams -/

/-- A token of an OpenFOAM stream. -/
inductive token where
  | word (w : Foam.word)
  | label (n : Foam.label)
  | scalar (x : Foam.scalar)
  | punctuation (c : Char)
deriving DecidableEq, Repr

/-- Test `token::isNumber()`: a label or a scalar. -/
def token.isNumber : token → Bool
  | .label _ => true
  | .scalar _ => true
  | _ => false

/-- Accessor `token::number()`: the numeric value of a label or scalar token
(0 for any other token, which `readScalar` never asks for). -/
def token.number : token → Foam.scalar
  | .label n => (n : ℚ)
  | .scalar x => x
  | _ => 0

/-- The tokens still to be read. -/
abbrev Istream := List token

/-- Modelled from the spec: `readScalar(Istream&)` is declared outside the header
(stream library).  It takes the next token; a number is returned as a scalar, and
an exhausted stream or a token of another kind is a configuration error, which
the spec (section 7) has surface as a fatal construction failure. -/
def readScalar : Istream → Except FatalError (scalar × Istream)
  | [] => .error .ioError
  | t :: rest => if t.isNumber then .ok (t.number, rest) else .error .ioError

/-- Modelled from the spec: the stream constructor `word(Istream&)` is declared
outside the header (stream library).  It takes the next token, which has to be a
word; anything else is a configuration error (spec section 7). -/
def readWord : Istream → Except FatalError (word × Istream)
  | token.word w :: rest => .ok (w, rest)
  | _ => .error .ioError

/-! ## The collaborator `WENOSensor` -/

/-- The two members of `WENOSensor<Type>` the header uses.  `WENOSensor.H` is not
among the sources, so the sensor type, the type of the base it owns, the
constructor `WENOSensor(mesh, polOrder)` and `WENOBaseRef()` are parameters. -/
structure WENOSensorApi (Sensor Base : Type) where
  construct : fvMesh → scalar → Except FatalError Sensor
  WENOBaseRef : Sensor → Base

/-! ## The class `WENOHybrid<Type>` -/

/-- Private data of `WENOHybrid<Type>`, in declaration order, preceded by the mesh
held by the base class `surfaceInterpolationScheme<Type>`. -/
structure WENOHybrid (V Sensor Base : Type) where
  mesh : fvMesh
  faceFlux_ : reference surfaceScalarField
  polOrder_ : scalar
  limFac_ : scalar
  limiter_ : scalar
  WENOSensor_ : Sensor
  WENOBase_ : Base
  correctionPtr_ : Option (GeometricField V)

/-- Member `zeroFlux()`: a `tmp` that owns a `new` surface scalar field named
"zeroFlux" at the current time of the mesh, built from
`dimensionedScalar("zeroFlux", dimless, 0.0)`. -/
def zeroFlux (mesh : fvMesh) : tmp surfaceScalarField :=
  { object :=
      GeometricField.uniformSurface ⟨"zeroFlux", mesh.timeName⟩ mesh
        ⟨"zeroFlux", dimless, (0 : scalar)⟩
    isTmp := true }

section Constructors

variable {V Sensor Base : Type}

/-- Constructor `WENOHybrid(const fvMesh& mesh, const label polOrder)`, in a build
whose `scalar` has `digits` significand bits.  Members are initialised in
declaration order; `faceFlux_` is bound to the temporary that `zeroFlux()` returns. -/
def WENOHybrid.fromMesh (api : WENOSensorApi Sensor Base) (digits : ℕ) (mesh : fvMesh)
    (polOrder : label) : Except FatalError (WENOHybrid V Sensor Base) := do
  let faceFlux_ := (zeroFlux mesh).bindMember
  let polOrder_ : scalar := labelToScalar digits polOrder
  let limFac_ : scalar := 0
  let limiter_ : scalar := 1
  let WENOSensor_ ← api.construct mesh polOrder_
  let WENOBase_ := api.WENOBaseRef WENOSensor_
  pure
    { mesh := mesh, faceFlux_ := faceFlux_, polOrder_ := polOrder_, limFac_ := limFac_,
      limiter_ := limiter_, WENOSensor_ := WENOSensor_, WENOBase_ := WENOBase_,
      correctionPtr_ := none }

/-- Constructor `WENOHybrid(const fvMesh& mesh, Istream& is)`.
Returns the scheme and the stream left after construction. -/
def WENOHybrid.fromIstream (api : WENOSensorApi Sensor Base) (mesh : fvMesh)
    (is : Istream) : Except FatalError (WENOHybrid V Sensor Base × Istream) := do
  let (fluxName, is) ← readWord is
  let flux ← mesh.lookupObject fluxName
  let faceFlux_ := reference.live flux
  let (polOrder_, is) ← readScalar is
  let (limFac_, is) ← readScalar is
  let (limiter_, is) ← readScalar is
  let WENOSensor_ ← api.construct mesh polOrder_
  let WENOBase_ := api.WENOBaseRef WENOSensor_
  pure
    ({ mesh := mesh, faceFlux_ := faceFlux_, polOrder_ := polOrder_, limFac_ := limFac_,
       limiter_ := limiter_, WENOSensor_ := WENOSensor_, WENOBase_ := WENOBase_,
       correctionPtr_ := none }, is)

/-- Constructor `WENOHybrid(const fvMesh& mesh, const surfaceScalarField& faceFlux,
Istream& is)`.  Returns the scheme and the stream left after construction. -/
def WENOHybrid.fromFluxIstream (api : WENOSensorApi Sensor Base) (mesh : fvMesh)
    (faceFlux : surfaceScalarField) (is : Istream) :
    Except FatalError (WENOHybrid V Sensor Base × Istream) := do
  let faceFlux_ := reference.live faceFlux
  let (polOrder_, is) ← readScalar is
  let (limFac_, is) ← readScalar is
  let (limiter_, is) ← readScalar is
  let WENOSensor_ ← api.construct mesh polOrder_
  let WENOBase_ := api.WENOBaseRef WENOSensor_
  pure
    ({ mesh := mesh, faceFlux_ := faceFlux_, polOrder_ := polOrder_, limFac_ := limFac_,
       limiter_ := limiter_, WENOSensor_ := WENOSensor_, WENOBase_ := WENOBase_,
       correctionPtr_ := none }, is)

/-- Member `corrected() const`: the returned flag, together with the object after the
call (a `const` member whose body is `return true;`). -/
def WENOHybrid.corrected (s : WENOHybrid V Sensor Base) : Bool × WENOHybrid V Sensor Base :=
  (true, s)

end Constructors

/-! ## The correction assembler

The header declares `correction`, `calcCorrectionFlux`, `calcShockSensor` and
`calcLimiter`; their bodies are in `WENOHybrid.C`. -/

/-- A face of the mesh: an internal face, or a face of a boundary patch. -/
inductive faceLabel where
  | internal (faceI : ℕ)
  | boundary (patchI faceI : ℕ)
deriving DecidableEq, Repr

/-- Whether the mesh has the face. -/
def fvMesh.hasFace (mesh : fvMesh) : faceLabel → Bool
  | .internal faceI => decide (faceI < mesh.nInternalFaces)
  | .boundary patchI faceI =>
    match mesh.patchSizes[patchI]? with
    | some n => decide (faceI < n)
    | none => false

/-- The surface field on the mesh that holds `g f` on every face `f`. -/
def GeometricField.ofFaces {V : Type} (io : IOobject) (dims : dimensionSet) (mesh : fvMesh)
    (g : faceLabel → V) : GeometricField V :=
  { name := io.name
    instanceName := io.instanceName
    dimensions := dims
    internalField := (List.range mesh.nInternalFaces).map (fun faceI => g (.internal faceI))
    boundaryField :=
      mesh.patchSizes.enum.map
        (fun pn => (List.range pn.2).map (fun faceI => g (.boundary pn.1 faceI))) }

/-- Modelled from the spec: the bodies of `calcShockSensor`, `calcLimiter`, `sumFlux`,
`swapData`, `coupledRiemannSolver` and `weights` are in `WENOHybrid.C` and the WENO
engine, which are not among the sources.  These are the four per-face quantities
that section 4.3 of the spec combines, each for a transported field: the sensor
value (4.1), the factor the limiter computes (4.4), the WENO value of the face
(4.3 steps 1 and 4) and its linear value (4.3 step 2). -/
structure CorrectionInputs (V : Type) where
  sensor : GeometricField V → faceLabel → scalar
  calcLimiter : GeometricField V → faceLabel → scalar
  WENO_value : GeometricField V → faceLabel → V
  linear_value : GeometricField V → faceLabel → V

section Correction

variable {V Sensor Base : Type} [AddCommGroup V] [Module ℚ V]

/-- Modelled from the spec: the limiter gate of `calcCorrectionFlux`
(`WENOHybrid.C`, not among the sources).  Section 4.3: "when `limFac_ == 0`, skip
limiting (factor forced to 1, i.e., unlimited)"; otherwise the factor is the one
the limiter computes. -/
def WENOHybrid.limiterFactor (s : WENOHybrid V Sensor Base) (d : CorrectionInputs V)
    (vf : GeometricField V) (f : faceLabel) : scalar :=
  if s.limFac_ = 0 then 1 else d.calcLimiter vf f

/-- Modelled from the spec: the value `calcCorrectionFlux` and `correction`
(`WENOHybrid.C`, not among the sources) give one face.  Section 4.3 step 3:
`correction = sensor * limiterFactor * (WENO_value - linear_value)`. -/
def WENOHybrid.faceCorrection (s : WENOHybrid V Sensor Base) (d : CorrectionInputs V)
    (vf : GeometricField V) (f : faceLabel) : V :=
  d.sensor vf f • (s.limiterFactor d vf f • (d.WENO_value vf f - d.linear_value vf f))

/-- Modelled from the spec: `correction(vf)` (`WENOHybrid.C`, not among the sources).
Sections 3 and 4.3: the correction of every face of the mesh is recomputed at each
call from the field passed in, stored in the cache `correctionPtr_` and returned.
The spec fixes the face values only; name, instance and dimensions are taken from
the transported field. -/
def WENOHybrid.correction (s : WENOHybrid V Sensor Base) (d : CorrectionInputs V)
    (vf : GeometricField V) : GeometricField V × WENOHybrid V Sensor Base :=
  let c := GeometricField.ofFaces ⟨vf.name, vf.instanceName⟩ vf.dimensions s.mesh
    (s.faceCorrection d vf)
  (c, { s with correctionPtr_ := some c })

end Correction

/-! ## Sample objects -/

/-- A sensor that accepts every order and records what it was built from; the base
it owns records the same. -/
def recordingSensor : WENOSensorApi (fvMesh × scalar) (fvMesh × scalar) where
  construct := fun mesh p => .ok (mesh, p)
  WENOBaseRef := fun sensor => sensor

/-- A face flux named "phi" on a mesh of two internal faces and one patch of one
face. -/
def samplePhi : surfaceScalarField :=
  { name := "phi", instanceName := "0", dimensions := ⟨0, 3, -1, 0, 0, 0, 0⟩,
    internalField := [1, -2], boundaryField := [[3]] }

/-- A mesh of two internal faces and one boundary patch of one face, with "phi"
registered. -/
def sampleMesh : fvMesh :=
  { nInternalFaces := 2, patchSizes := [1], timeName := "0", registry := [samplePhi] }

/-- A scheme as the flux-free constructor builds it on the sample mesh, with the
limiting flag set as given. -/
def sampleScheme (limFac : scalar) : WENOHybrid scalar (fvMesh × scalar) (fvMesh × scalar) :=
  { mesh := sampleMesh, faceFlux_ := (zeroFlux sampleMesh).bindMember, polOrder_ := 2,
    limFac_ := limFac,
    limiter_ := 1, WENOSensor_ := (sampleMesh, 2), WENOBase_ := (sampleMesh, 2),
    correctionPtr_ := none }

/-- A transported scalar field of three cells. -/
def sampleField : GeometricField scalar :=
  { name := "T", instanceName := "0", dimensions := dimless,
    internalField := [1, 2, 4], boundaryField := [[4]] }

/-- Per-face inputs with the given sensor value on every face, limiter factor 1/2,
WENO value 3 and linear value 1. -/
def sampleInputs (sensorValue : scalar) : CorrectionInputs scalar :=
  { sensor := fun _ _ => sensorValue
    calcLimiter := fun _ _ => 1 / 2
    WENO_value := fun _ _ => 3
    linear_value := fun _ _ => 1 }

/-! ## Reading from a stream -/

section StreamLemmas

theorem readScalar_number (t : token) (rest : Istream) (h : t.isNumber = true) :
    readScalar (t :: rest) = .ok (t.number, rest) := by
  simp [readScalar, h]

theorem readScalar_ok_iff (is rest : Istream) (x : scalar) :
    readScalar is = .ok (x, rest) ↔
      ∃ t, is = t :: rest ∧ t.isNumber = true ∧ x = t.number := by
  cases is with
  | nil => simp [readScalar]
  | cons t tl =>
    by_cases ht : t.isNumber = true
    · simp only [readScalar, ht, if_true, Except.ok.injEq, Prod.mk.injEq, List.cons.injEq]
      constructor
      · rintro ⟨rfl, rfl⟩
        exact ⟨t, ⟨rfl, rfl⟩, ht, rfl⟩
      · rintro ⟨u, ⟨rfl, rfl⟩, -, rfl⟩
        exact ⟨rfl, rfl⟩
    · simp only [readScalar, ht, Bool.false_eq_true, if_false, false_iff, not_exists,
        List.cons.injEq, not_and, and_imp, reduceCtorEq]
      rintro u rfl - hu
      exact absurd hu ht

theorem readScalar_nil : readScalar [] = .error .ioError := rfl

theorem readWord_ok_iff (is rest : Istream) (w : word) :
    readWord is = .ok (w, rest) ↔ is = token.word w :: rest := by
  cases is with
  | nil => simp [readWord]
  | cons t tl =>
    cases t <;> simp [readWord, eq_comm]

end StreamLemmas

/-! ## What a successful construction looks like -/

section ConstructorLemmas

variable {V Sensor Base : Type}

theorem bind_ok_iff {ε α β : Type} (x : Except ε α) (f : α → Except ε β) (b : β) :
    (x >>= f) = .ok b ↔ ∃ a, x = .ok a ∧ f a = .ok b := by
  cases x <;> simp [bind, Except.bind]

theorem zeroFlux_bindMember (mesh : fvMesh) : (zeroFlux mesh).bindMember = .dangling :=
  rfl

theorem labelToScalar_of_lt (digits : ℕ) (n : label) (h : n.natAbs < 2 ^ digits) :
    labelToScalar digits n = (n : ℚ) := by
  simp [labelToScalar, h]

/-- In double precision the label 3 is converted exactly, and the 64-bit label
`2 ^ 53 + 1` is rounded to `2 ^ 53`. -/
theorem labelToScalar_rounds :
    labelToScalar 53 3 = 3 ∧ labelToScalar 53 9007199254740993 = 9007199254740992 := by
  have hlog : Nat.log2 9007199254740993 = 53 := by
    rw [Nat.log2_eq_log_two, Nat.log_eq_iff (by norm_num)]
    norm_num
  have hsign : Int.sign 9007199254740993 = 1 := rfl
  constructor
  · norm_num [labelToScalar]
  · norm_num [labelToScalar, hlog, hsign]

theorem fromMesh_eq (api : WENOSensorApi Sensor Base) (digits : ℕ) (mesh : fvMesh)
    (polOrder : label) :
    WENOHybrid.fromMesh (V := V) api digits mesh polOrder =
      (api.construct mesh (labelToScalar digits polOrder)).map
        (fun sensor => ⟨mesh, .dangling, labelToScalar digits polOrder, 0, 1, sensor,
          api.WENOBaseRef sensor, none⟩) := by
  unfold WENOHybrid.fromMesh
  cases h : api.construct mesh (labelToScalar digits polOrder) <;>
    simp [h, bind, Except.bind, Except.map, pure, Except.pure, zeroFlux_bindMember]

theorem fromMesh_ok_iff (api : WENOSensorApi Sensor Base) (digits : ℕ) (mesh : fvMesh)
    (polOrder : label) (s : WENOHybrid V Sensor Base) :
    WENOHybrid.fromMesh api digits mesh polOrder = .ok s ↔
      ∃ sensor, api.construct mesh (labelToScalar digits polOrder) = .ok sensor ∧
        s = ⟨mesh, .dangling, labelToScalar digits polOrder, 0, 1, sensor,
              api.WENOBaseRef sensor, none⟩ := by
  rw [fromMesh_eq]
  cases h : api.construct mesh (labelToScalar digits polOrder) with
  | error e => simp [Except.map]
  | ok sensor =>
    simp only [Except.map, Except.ok.injEq, exists_eq_left']
    exact eq_comm

theorem fromFluxIstream_ok_iff (api : WENOSensorApi Sensor Base) (mesh : fvMesh)
    (faceFlux : surfaceScalarField) (is rest : Istream) (s : WENOHybrid V Sensor Base) :
    WENOHybrid.fromFluxIstream api mesh faceFlux is = .ok (s, rest) ↔
      ∃ t1 t2 t3 sensor, is = t1 :: t2 :: t3 :: rest ∧
        t1.isNumber = true ∧ t2.isNumber = true ∧ t3.isNumber = true ∧
        api.construct mesh t1.number = .ok sensor ∧
        s = ⟨mesh, .live faceFlux, t1.number, t2.number, t3.number, sensor,
              api.WENOBaseRef sensor, none⟩ := by
  unfold WENOHybrid.fromFluxIstream
  simp only [bind_ok_iff, pure, Except.pure, Except.ok.injEq, Prod.exists, Prod.mk.injEq]
  constructor
  · rintro ⟨p, is1, h1, f, is2, h2, l, is3, h3, sensor, hs, rfl, rfl⟩
    obtain ⟨t1, rfl, n1, rfl⟩ := (readScalar_ok_iff _ _ _).1 h1
    obtain ⟨t2, rfl, n2, rfl⟩ := (readScalar_ok_iff _ _ _).1 h2
    obtain ⟨t3, rfl, n3, rfl⟩ := (readScalar_ok_iff _ _ _).1 h3
    exact ⟨t1, t2, t3, sensor, rfl, n1, n2, n3, hs, rfl⟩
  · rintro ⟨t1, t2, t3, sensor, rfl, n1, n2, n3, hs, rfl⟩
    exact ⟨_, _, readScalar_number t1 _ n1, _, _, readScalar_number t2 _ n2, _, _,
      readScalar_number t3 _ n3, sensor, hs, rfl, rfl⟩

theorem fromIstream_ok_iff (api : WENOSensorApi Sensor Base) (mesh : fvMesh)
    (is rest : Istream) (s : WENOHybrid V Sensor Base) :
    WENOHybrid.fromIstream api mesh is = .ok (s, rest) ↔
      ∃ w flux t1 t2 t3 sensor, is = token.word w :: t1 :: t2 :: t3 :: rest ∧
        mesh.lookupObject w = .ok flux ∧
        t1.isNumber = true ∧ t2.isNumber = true ∧ t3.isNumber = true ∧
        api.construct mesh t1.number = .ok sensor ∧
        s = ⟨mesh, .live flux, t1.number, t2.number, t3.number, sensor,
              api.WENOBaseRef sensor, none⟩ := by
  unfold WENOHybrid.fromIstream
  simp only [bind_ok_iff, pure, Except.pure, Except.ok.injEq, Prod.exists, Prod.mk.injEq]
  constructor
  · rintro ⟨w, is0, h0, flux, hl, p, is1, h1, f, is2, h2, l, is3, h3, sensor, hs, rfl, rfl⟩
    obtain rfl := (readWord_ok_iff _ _ _).1 h0
    obtain ⟨t1, rfl, n1, rfl⟩ := (readScalar_ok_iff _ _ _).1 h1
    obtain ⟨t2, rfl, n2, rfl⟩ := (readScalar_ok_iff _ _ _).1 h2
    obtain ⟨t3, rfl, n3, rfl⟩ := (readScalar_ok_iff _ _ _).1 h3
    exact ⟨w, flux, t1, t2, t3, sensor, rfl, hl, n1, n2, n3, hs, rfl⟩
  · rintro ⟨w, flux, t1, t2, t3, sensor, rfl, hl, n1, n2, n3, hs, rfl⟩
    exact ⟨w, _, (readWord_ok_iff _ _ _).2 rfl, flux, hl, _, _, readScalar_number t1 _ n1,
      _, _, readScalar_number t2 _ n2, _, _, readScalar_number t3 _ n3, sensor, hs, rfl, rfl⟩

theorem fromIstream_lookup_error (api : WENOSensorApi Sensor Base) (mesh : fvMesh)
    (w : word) (rest : Istream) (e : FatalError) (h : mesh.lookupObject w = .error e) :
    WENOHybrid.fromIstream (V := V) api mesh (token.word w :: rest) = .error e := by
  simp [WENOHybrid.fromIstream, readWord, h, bind, Except.bind]

end ConstructorLemmas

/-! ## Fields assembled face by face -/

section FieldLemmas

variable {V : Type}

theorem ofFaces_internalField_of_const (io : IOobject) (dims : dimensionSet) (mesh : fvMesh)
    (g : faceLabel → V) (c : V) (h : ∀ f, mesh.hasFace f = true → g f = c) :
    (GeometricField.ofFaces io dims mesh g).internalField =
      List.replicate mesh.nInternalFaces c := by
  unfold GeometricField.ofFaces
  rw [List.eq_replicate_iff]
  refine ⟨by simp, ?_⟩
  intro b hb
  obtain ⟨faceI, hI, rfl⟩ := List.mem_map.1 hb
  apply h
  simpa [fvMesh.hasFace] using List.mem_range.1 hI

theorem ofFaces_boundaryField_of_const (io : IOobject) (dims : dimensionSet) (mesh : fvMesh)
    (g : faceLabel → V) (c : V) (h : ∀ f, mesh.hasFace f = true → g f = c) :
    (GeometricField.ofFaces io dims mesh g).boundaryField =
      mesh.patchSizes.map (fun n => List.replicate n c) := by
  unfold GeometricField.ofFaces
  have key : ∀ pn ∈ mesh.patchSizes.enum,
      (List.range pn.2).map (fun faceI => g (.boundary pn.1 faceI)) =
        ((fun n => List.replicate n c) ∘ Prod.snd) pn := by
    intro pn hpn
    have hget := List.mem_enum_iff_getElem?.1 hpn
    simp only [Function.comp]
    rw [List.eq_replicate_iff]
    refine ⟨by simp, ?_⟩
    intro b hb
    obtain ⟨faceI, hI, rfl⟩ := List.mem_map.1 hb
    apply h
    simpa [fvMesh.hasFace, hget] using List.mem_range.1 hI
  show List.map _ mesh.patchSizes.enum = _
  rw [List.map_congr_left key, ← List.map_map, List.enum_map_snd]

end FieldLemmas

/-! ## Properties of the code in the header -/

section HeaderClaims

variable {V Sensor Base : Type}

/-- C3: `corrected()` returns true for every scheme instance, whichever constructor
built it and whatever polynomial order, limiting flag and limiter scale it holds,
and the instance after the call is the instance before it. -/
theorem corrected_true_and_state_kept (s : WENOHybrid V Sensor Base) :
    s.corrected = (true, s) :=
  rfl

/-- C6, what the code does: `zeroFlux()` does build a dimensionless field that is 0 on
every internal face and on every face of every patch of the mesh, but it hands it
over in a `tmp` that owns it, and `faceFlux_` is a reference bound to that temporary.
For every mesh, every order and every sensor, flux-free construction either stops
in the sensor or yields a scheme whose `faceFlux_` is dangling (the reference bound to the
temporary has no live object behind it), with `polOrder_` the given order converted
to `scalar`, `limFac_ = 0` and `limiter_ = 1`. -/
theorem fromMesh_leaves_faceFlux_dangling (api : WENOSensorApi Sensor Base) (digits : ℕ)
    (mesh : fvMesh) (polOrder : label) :
    (zeroFlux mesh).isTmp = true ∧
      (zeroFlux mesh).object.dimensions = dimless ∧
      (zeroFlux mesh).object.internalField = List.replicate mesh.nInternalFaces 0 ∧
      (zeroFlux mesh).object.boundaryField =
        mesh.patchSizes.map (fun n => List.replicate n 0) ∧
      WENOHybrid.fromMesh (V := V) api digits mesh polOrder =
        (api.construct mesh (labelToScalar digits polOrder)).map
          (fun sensor => ⟨mesh, .dangling, labelToScalar digits polOrder, 0, 1, sensor,
            api.WENOBaseRef sensor, none⟩) ∧
      (zeroFlux mesh).bindMember.deref = none :=
  ⟨rfl, rfl, rfl, rfl, fromMesh_eq api digits mesh polOrder, rfl⟩

/-- C9: the stream constructors consume the configuration in a fixed order.
`WENOHybrid(mesh, faceFlux, is)` reads three numbers and stores them, in this order,
as `polOrder_`, `limFac_` and `limiter_`, keeps the flux passed in, and leaves the
rest of the stream untouched.  `WENOHybrid(mesh, is)` first reads one word and looks
the field of that name up on the mesh: when it is registered it becomes the face
flux, the same three numbers are read in the same order and the rest of the stream
is left untouched; when it is not, construction stops with the error of the lookup. -/
theorem stream_constructors_read_in_order (api : WENOSensorApi Sensor Base) (mesh : fvMesh)
    (faceFlux : surfaceScalarField) (w : word) (t1 t2 t3 : token) (rest : Istream)
    (sensor : Sensor)
    (h1 : t1.isNumber = true) (h2 : t2.isNumber = true) (h3 : t3.isNumber = true)
    (hsensor : api.construct mesh t1.number = .ok sensor) :
    WENOHybrid.fromFluxIstream (V := V) api mesh faceFlux (t1 :: t2 :: t3 :: rest) =
        .ok (⟨mesh, .live faceFlux, t1.number, t2.number, t3.number, sensor,
              api.WENOBaseRef sensor, none⟩, rest) ∧
      (∀ flux, mesh.lookupObject w = .ok flux →
        WENOHybrid.fromIstream (V := V) api mesh (token.word w :: t1 :: t2 :: t3 :: rest) =
          .ok (⟨mesh, .live flux, t1.number, t2.number, t3.number, sensor,
                api.WENOBaseRef sensor, none⟩, rest)) ∧
      (∀ e, mesh.lookupObject w = .error e →
        WENOHybrid.fromIstream (V := V) api mesh (token.word w :: t1 :: t2 :: t3 :: rest) =
          .error e) :=
  ⟨(fromFluxIstream_ok_iff api mesh faceFlux _ rest _).2
      ⟨t1, t2, t3, sensor, rfl, h1, h2, h3, hsensor, rfl⟩,
   fun flux hlookup => (fromIstream_ok_iff api mesh _ rest _).2
      ⟨w, flux, t1, t2, t3, sensor, rfl, hlookup, h1, h2, h3, hsensor, rfl⟩,
   fun e hlookup => fromIstream_lookup_error api mesh w _ e hlookup⟩

/-- C10: in all three constructors the sensor held by the scheme is the one built
from the mesh of the scheme and from the polynomial order the scheme stores, and
`WENOBase_` is the base that this same sensor owns. -/
theorem sensor_built_from_stored_order (api : WENOSensorApi Sensor Base) (digits : ℕ)
    (mesh : fvMesh) (faceFlux : surfaceScalarField) :
    (∀ (polOrder : label) (s : WENOHybrid V Sensor Base),
        WENOHybrid.fromMesh api digits mesh polOrder = .ok s →
          s.mesh = mesh ∧ api.construct s.mesh s.polOrder_ = .ok s.WENOSensor_ ∧
            s.WENOBase_ = api.WENOBaseRef s.WENOSensor_) ∧
      (∀ (is rest : Istream) (s : WENOHybrid V Sensor Base),
        WENOHybrid.fromIstream api mesh is = .ok (s, rest) →
          s.mesh = mesh ∧ api.construct s.mesh s.polOrder_ = .ok s.WENOSensor_ ∧
            s.WENOBase_ = api.WENOBaseRef s.WENOSensor_) ∧
      (∀ (is rest : Istream) (s : WENOHybrid V Sensor Base),
        WENOHybrid.fromFluxIstream api mesh faceFlux is = .ok (s, rest) →
          s.mesh = mesh ∧ api.construct s.mesh s.polOrder_ = .ok s.WENOSensor_ ∧
            s.WENOBase_ = api.WENOBaseRef s.WENOSensor_) := by
  refine ⟨?_, ?_, ?_⟩
  · intro polOrder s h
    obtain ⟨sensor, hs, rfl⟩ := (fromMesh_ok_iff api digits mesh polOrder s).1 h
    exact ⟨rfl, hs, rfl⟩
  · intro is rest s h
    obtain ⟨w, flux, t1, t2, t3, sensor, -, -, -, -, -, hs, rfl⟩ :=
      (fromIstream_ok_iff api mesh is rest s).1 h
    exact ⟨rfl, hs, rfl⟩
  · intro is rest s h
    obtain ⟨t1, t2, t3, sensor, -, -, -, -, hs, rfl⟩ :=
      (fromFluxIstream_ok_iff api mesh faceFlux is rest s).1 h
    exact ⟨rfl, hs, rfl⟩

/-- C7, as the claim states it, fails: a stream that supplies the polynomial order 2
and the limiting flag 0 but no limiter scale does not construct a scheme with
`limiter_ = 1`; either stream constructor stops with a stream error. -/
theorem limiter_scale_missing_stops_construction :
    WENOHybrid.fromFluxIstream (V := scalar) recordingSensor sampleMesh samplePhi
        [token.label 2, token.label 0] = .error .ioError ∧
      WENOHybrid.fromIstream (V := scalar) recordingSensor sampleMesh
        [token.word "phi", token.label 2, token.label 0] = .error .ioError :=
  ⟨rfl, rfl⟩

/-- C7, amended: the limiter scale is 1 by default in flux-free construction only.
A stream constructor has no default: construction from a stream that supplies the
polynomial order and the limiting flag but no limiter scale stops (with a stream
error, or before that with the error of the flux lookup), and every successful
stream construction has read a third number and holds it as `limiter_`. -/
theorem limiter_scale_default_only_flux_free (api : WENOSensorApi Sensor Base)
    (digits : ℕ) (mesh : fvMesh) (faceFlux : surfaceScalarField) (w : word) (t1 t2 : token)
    (h1 : t1.isNumber = true) (h2 : t2.isNumber = true) :
    (∀ (polOrder : label) (s : WENOHybrid V Sensor Base),
        WENOHybrid.fromMesh api digits mesh polOrder = .ok s → s.limiter_ = 1) ∧
      WENOHybrid.fromFluxIstream (V := V) api mesh faceFlux [t1, t2] = .error .ioError ∧
      (∀ flux, mesh.lookupObject w = .ok flux →
        WENOHybrid.fromIstream (V := V) api mesh [token.word w, t1, t2] = .error .ioError) ∧
      (∀ e, mesh.lookupObject w = .error e →
        WENOHybrid.fromIstream (V := V) api mesh [token.word w, t1, t2] = .error e) ∧
      (∀ (is rest : Istream) (s : WENOHybrid V Sensor Base),
        WENOHybrid.fromFluxIstream api mesh faceFlux is = .ok (s, rest) →
          ∃ u1 u2 u3, is = u1 :: u2 :: u3 :: rest ∧ u3.isNumber = true ∧
            s.limiter_ = u3.number) ∧
      (∀ (is rest : Istream) (s : WENOHybrid V Sensor Base),
        WENOHybrid.fromIstream api mesh is = .ok (s, rest) →
          ∃ v u1 u2 u3, is = token.word v :: u1 :: u2 :: u3 :: rest ∧ u3.isNumber = true ∧
            s.limiter_ = u3.number) := by
  refine ⟨?_, ?_, ?_, ?_, ?_, ?_⟩
  · intro polOrder s h
    obtain ⟨sensor, -, rfl⟩ := (fromMesh_ok_iff api digits mesh polOrder s).1 h
    rfl
  · simp [WENOHybrid.fromFluxIstream, readScalar, h1, h2, bind, Except.bind]
  · intro flux hlookup
    simp [WENOHybrid.fromIstream, readWord, hlookup, readScalar, h1, h2, bind, Except.bind]
  · intro e hlookup
    exact fromIstream_lookup_error api mesh w _ e hlookup
  · intro is rest s h
    obtain ⟨u1, u2, u3, sensor, rfl, -, -, n3, -, rfl⟩ :=
      (fromFluxIstream_ok_iff api mesh faceFlux is rest s).1 h
    exact ⟨u1, u2, u3, rfl, n3, rfl⟩
  · intro is rest s h
    obtain ⟨v, fl, u1, u2, u3, sensor, rfl, -, -, -, n3, -, rfl⟩ :=
      (fromIstream_ok_iff api mesh is rest s).1 h
    exact ⟨v, u1, u2, u3, rfl, n3, rfl⟩

/-- C9 at a concrete input: the streams `2 1 1 x` and `phi 2 1 1 x`. -/
theorem stream_constructors_read_in_order_witness :
    WENOHybrid.fromFluxIstream (V := scalar) recordingSensor sampleMesh samplePhi
        [token.label 2, token.label 1, token.scalar 1, token.word "x"] =
        .ok (⟨sampleMesh, .live samplePhi, (token.label 2).number, (token.label 1).number,
              (token.scalar 1).number, (sampleMesh, (token.label 2).number),
              (sampleMesh, (token.label 2).number), none⟩, [token.word "x"]) ∧
      WENOHybrid.fromIstream (V := scalar) recordingSensor sampleMesh
        [token.word "phi", token.label 2, token.label 1, token.scalar 1, token.word "x"] =
        .ok (⟨sampleMesh, .live samplePhi, (token.label 2).number, (token.label 1).number,
              (token.scalar 1).number, (sampleMesh, (token.label 2).number),
              (sampleMesh, (token.label 2).number), none⟩, [token.word "x"]) ∧
      WENOHybrid.fromIstream (V := scalar) recordingSensor sampleMesh
        [token.word "rho", token.label 2, token.label 1, token.scalar 1, token.word "x"] =
        .error .lookupError :=
  ⟨(stream_constructors_read_in_order recordingSensor sampleMesh samplePhi
      "phi" (token.label 2) (token.label 1) (token.scalar 1) [token.word "x"]
      (sampleMesh, (token.label 2).number) rfl rfl rfl rfl).1,
   (stream_constructors_read_in_order recordingSensor sampleMesh samplePhi
      "phi" (token.label 2) (token.label 1) (token.scalar 1) [token.word "x"]
      (sampleMesh, (token.label 2).number) rfl rfl rfl rfl).2.1 samplePhi rfl,
   (stream_constructors_read_in_order recordingSensor sampleMesh samplePhi
      "rho" (token.label 2) (token.label 1) (token.scalar 1) [token.word "x"]
      (sampleMesh, (token.label 2).number) rfl rfl rfl rfl).2.2 .lookupError rfl⟩

/-- C10 at a concrete input: the three constructors on the sample mesh. -/
theorem sensor_built_from_stored_order_witness :
    (∃ s : WENOHybrid scalar (fvMesh × scalar) (fvMesh × scalar),
        WENOHybrid.fromMesh recordingSensor 53 sampleMesh 2 = .ok s ∧
        s.mesh = sampleMesh ∧ recordingSensor.construct s.mesh s.polOrder_ = .ok s.WENOSensor_ ∧
        s.WENOBase_ = recordingSensor.WENOBaseRef s.WENOSensor_) ∧
      (∃ s : WENOHybrid scalar (fvMesh × scalar) (fvMesh × scalar),
        WENOHybrid.fromIstream recordingSensor sampleMesh
          [token.word "phi", token.label 2, token.label 1, token.label 1] = .ok (s, []) ∧
        s.mesh = sampleMesh ∧ recordingSensor.construct s.mesh s.polOrder_ = .ok s.WENOSensor_ ∧
        s.WENOBase_ = recordingSensor.WENOBaseRef s.WENOSensor_) ∧
      (∃ s : WENOHybrid scalar (fvMesh × scalar) (fvMesh × scalar),
        WENOHybrid.fromFluxIstream recordingSensor sampleMesh samplePhi
          [token.label 2, token.label 1, token.label 1] = .ok (s, []) ∧
        s.mesh = sampleMesh ∧ recordingSensor.construct s.mesh s.polOrder_ = .ok s.WENOSensor_ ∧
        s.WENOBase_ = recordingSensor.WENOBaseRef s.WENOSensor_) :=
  ⟨⟨_, rfl, (sensor_built_from_stored_order recordingSensor 53 sampleMesh samplePhi).1 2 _ rfl⟩,
   ⟨_, rfl, (sensor_built_from_stored_order recordingSensor 53 sampleMesh samplePhi).2.1
      [token.word "phi", token.label 2, token.label 1, token.label 1] [] _ rfl⟩,
   ⟨_, rfl, (sensor_built_from_stored_order recordingSensor 53 sampleMesh samplePhi).2.2
      [token.label 2, token.label 1, token.label 1] [] _ rfl⟩⟩

/-- C7 (amended) at a concrete input: the streams `2 0` and `phi 2 0`. -/
theorem limiter_scale_default_only_flux_free_witness :
    (token.label 2).isNumber = true ∧ (token.label 0).isNumber = true ∧
      sampleMesh.lookupObject "phi" = .ok samplePhi ∧
      WENOHybrid.fromFluxIstream (V := scalar) recordingSensor sampleMesh samplePhi
        [token.label 2, token.label 0] = .error .ioError ∧
      WENOHybrid.fromIstream (V := scalar) recordingSensor sampleMesh
        [token.word "phi", token.label 2, token.label 0] = .error .ioError :=
  ⟨rfl, rfl, rfl,
    (limiter_scale_default_only_flux_free (V := scalar) recordingSensor 53 sampleMesh samplePhi
      "phi" (token.label 2) (token.label 0) rfl rfl).2.1,
    (limiter_scale_default_only_flux_free (V := scalar) recordingSensor 53 sampleMesh samplePhi
      "phi" (token.label 2) (token.label 0) rfl rfl).2.2.1 samplePhi rfl⟩

end HeaderClaims

/-! ## Properties of the correction assembler -/

section CorrectionClaims

variable {V Sensor Base : Type} [AddCommGroup V] [Module ℚ V]

/-- C1: for every transported field and every mesh, if the shock sensor is 0 on every
face of the mesh then `correction(field)` returns a face field that is zero on every
internal face and on every face of every patch. -/
theorem correction_zero_of_sensor_zero (s : WENOHybrid V Sensor Base)
    (d : CorrectionInputs V) (vf : GeometricField V)
    (hsensor : ∀ f, s.mesh.hasFace f = true → d.sensor vf f = 0) :
    (s.correction d vf).1.internalField = List.replicate s.mesh.nInternalFaces 0 ∧
      (s.correction d vf).1.boundaryField =
        s.mesh.patchSizes.map (fun n => List.replicate n 0) := by
  have hzero : ∀ f, s.mesh.hasFace f = true → s.faceCorrection d vf f = 0 := by
    intro f hf
    simp [WENOHybrid.faceCorrection, hsensor f hf]
  exact ⟨ofFaces_internalField_of_const _ _ _ _ 0 hzero,
    ofFaces_boundaryField_of_const _ _ _ _ 0 hzero⟩

/-- C1 at a concrete input: the sample scheme with limiting on, sensor 0 on every
face, WENO value 3 and linear value 1. -/
theorem correction_zero_of_sensor_zero_witness :
    (∀ f, (sampleScheme 1).mesh.hasFace f = true → (sampleInputs 0).sensor sampleField f = 0) ∧
      ((sampleScheme 1).correction (sampleInputs 0) sampleField).1.internalField = [0, 0] ∧
      ((sampleScheme 1).correction (sampleInputs 0) sampleField).1.boundaryField = [[0]] :=
  ⟨fun _ _ => rfl,
    correction_zero_of_sensor_zero (sampleScheme 1) (sampleInputs 0) sampleField
      (fun _ _ => rfl)⟩

/-- On the sample data with sensor 1 the correction is not trivial: every face gets
`1 * 1 * (3 - 1) = 2` with the flag 0 and `1 * (1/2) * (3 - 1) = 1` with the flag 1. -/
theorem correction_sample_values :
    ((sampleScheme 0).correction (sampleInputs 1) sampleField).1.internalField = [2, 2] ∧
      ((sampleScheme 1).correction (sampleInputs 1) sampleField).1.internalField = [1, 1] ∧
      ((sampleScheme 1).correction (sampleInputs 1) sampleField).1.boundaryField = [[1]] := by
  refine ⟨?_, ?_, ?_⟩ <;>
    simp [WENOHybrid.correction, GeometricField.ofFaces, WENOHybrid.faceCorrection,
      WENOHybrid.limiterFactor, sampleScheme, sampleInputs, sampleMesh, List.range_succ,
      List.enum_cons] <;>
    norm_num

/-- C4: the limiting flag keeps the documented convention.  With `limFac_ = 0` limiting
is skipped: the limiter factor of every face is exactly 1 and the face correction is
the sensor times the WENO-minus-linear difference.  With `limFac_ = 1` the limiter is
applied: the factor of every face is the one the limiter computed. -/
theorem limFac_convention (s : WENOHybrid V Sensor Base) (d : CorrectionInputs V)
    (vf : GeometricField V) (f : faceLabel) :
    (s.limFac_ = 0 →
        s.limiterFactor d vf f = 1 ∧
          s.faceCorrection d vf f = d.sensor vf f • (d.WENO_value vf f - d.linear_value vf f)) ∧
      (s.limFac_ = 1 →
        s.limiterFactor d vf f = d.calcLimiter vf f ∧
          s.faceCorrection d vf f =
            d.sensor vf f • (d.calcLimiter vf f • (d.WENO_value vf f - d.linear_value vf f))) := by
  constructor
  · intro h
    simp [WENOHybrid.faceCorrection, WENOHybrid.limiterFactor, h]
  · intro h
    simp [WENOHybrid.faceCorrection, WENOHybrid.limiterFactor, h]

/-- C4 at a concrete input: the sample scheme with flag 0 and with flag 1, sensor 1,
limiter factor 1/2, WENO value 3 and linear value 1, on the first internal face. -/
theorem limFac_convention_witness :
    ((sampleScheme 0).limFac_ = 0 ∧
        (sampleScheme 0).limiterFactor (sampleInputs 1) sampleField (.internal 0) = 1) ∧
      ((sampleScheme 1).limFac_ = 1 ∧
        (sampleScheme 1).limiterFactor (sampleInputs 1) sampleField (.internal 0) =
          (sampleInputs 1).calcLimiter sampleField (.internal 0)) :=
  ⟨⟨rfl, ((limFac_convention (sampleScheme 0) (sampleInputs 1) sampleField
      (.internal 0)).1 rfl).1⟩,
    ⟨rfl, ((limFac_convention (sampleScheme 1) (sampleInputs 1) sampleField
      (.internal 0)).2 rfl).1⟩⟩

/-- C5: calling `correction(field)` twice on the same scheme with the same field
returns equal face fields; the result does not depend on what the cache
`correctionPtr_` holds, in particular not on what the first call left there. -/
theorem correction_twice_same (s : WENOHybrid V Sensor Base) (d : CorrectionInputs V)
    (vf : GeometricField V) :
    ((s.correction d vf).2.correction d vf).1 = (s.correction d vf).1 ∧
      (s.correction d vf).2.correctionPtr_ = some (s.correction d vf).1 ∧
      ∀ cache, ({ s with correctionPtr_ := cache }.correction d vf).1 = (s.correction d vf).1 :=
  ⟨rfl, rfl, fun _ => rfl⟩

end CorrectionClaims

end Foam
